import Mathlib

/-!
Verification of the trial-balance analysis and French 2025 tax-estimation core
(`app/analyzers.py` and `app/tax/france_2025.py`).

Modelling conventions of the shallow embedding:
* Python floats are modelled as exact rationals (`ℚ`); `round(x, 2)` is modelled
  as banker's rounding (round-half-to-even, Python's `round`) of `100 * x`,
  divided by 100.
* A pandas DataFrame is modelled as a list of column names plus a list of rows,
  each row a positional list of cells; a cell is a numeric value (also covering
  numeric-like strings, which `pd.to_numeric` parses), a non-numeric string, or
  a null.
* Python's `x or d` on an optional number (None and 0.0 are falsy) is `pyOrOpt`
  / `pyOrQ` below.
* `Suggestion` keeps only the stable `id` code; titles, rationales and reference
  URLs are presentation data with no bearing on control flow.
-/

/-- Banker's rounding (round half to even) of a rational to an integer,
modelling Python's `round` on the exact value. -/
def roundHalfEven (x : ℚ) : ℤ :=
  let n := Int.floor x
  let frac := x - n
  if frac < 1/2 then n
  else if 1/2 < frac then n + 1
  else if n % 2 = 0 then n else n + 1

/-- Python's `round(x, 2)`. -/
def round2 (x : ℚ) : ℚ :=
  (roundHalfEven (100 * x) : ℚ) / 100

/-- Python's `x or d` for an optional float `x`: `None` and `0.0` are falsy. -/
def pyOrOpt (x : Option ℚ) (d : ℚ) : ℚ :=
  match x with
  | none => d
  | some v => if v = 0 then d else v

/-- Python's `x or d` for a float `x`: `0.0` is falsy. -/
def pyOrQ (x : ℚ) (d : ℚ) : ℚ :=
  if x = 0 then d else x

/-- One cell of the raw tabular input. `num` covers numeric values and
numeric-like strings (which `pd.to_numeric` parses to a number); `text` is a
string that does not parse as a number; `null` is a missing value. -/
inductive Cell where
  | num : ℚ → Cell
  | text : String → Cell
  | null : Cell
deriving DecidableEq

/-- `astype(str)` on a cell (pandas string conversion; the exact rendering of
numbers and nulls is irrelevant to account-code handling, which only touches
string cells). -/
def Cell.pyStr : Cell → String
  | .num q => toString q
  | .text s => s
  | .null => "nan"

/-- `pd.to_numeric(col, errors="coerce").fillna(0.0)` on a cell: non-numeric
values are silently coerced to 0.0. -/
def Cell.toNumeric : Cell → ℚ
  | .num q => q
  | .text _ => 0
  | .null => 0

/-- Python's `str.strip()` (pandas `str.strip`): drop leading and trailing
whitespace. -/
def pyStrip (s : String) : String :=
  ⟨((s.data.dropWhile Char.isWhitespace).reverse.dropWhile Char.isWhitespace).reverse⟩

/-- The raw input table (a pandas DataFrame): named columns and positional
rows. -/
structure RawTable where
  columns : List String
  rows : List (List Cell)
deriving DecidableEq

/-- Reading column `c` of one row of `df` (`row[c]`). -/
def RawTable.cell (df : RawTable) (c : String) (row : List Cell) : Cell :=
  row.getD (df.columns.indexOf c) Cell.null

/-- A normalized trial-balance row: trimmed string account code, numeric
debit/credit, and the derived `balance = debit - credit` column. -/
structure TrialBalanceRow where
  account : String
  debit : ℚ
  credit : ℚ
  balance : ℚ
deriving DecidableEq

/-- `normalize_trial_balance` (analyzers.py): raises (here: `.error`) when one
of the required columns `account`, `debit`, `credit` is absent; otherwise trims
accounts to strings, coerces debit/credit to numbers (non-numeric becomes 0.0)
and adds the `balance = debit - credit` column. -/
def normalize_trial_balance (df : RawTable) : Except String (List TrialBalanceRow) :=
  if "account" ∈ df.columns ∧ "debit" ∈ df.columns ∧ "credit" ∈ df.columns then
    .ok <| df.rows.map fun r =>
      let acc := pyStrip (df.cell "account" r).pyStr
      let d := (df.cell "debit" r).toNumeric
      let c := (df.cell "credit" r).toNumeric
      { account := acc, debit := d, credit := c, balance := d - c }
  else
    .error "Colonnes requises manquantes: account, debit, credit"

/-- Python's `str.startswith` (pandas `str.startswith`): case-sensitive
character-sequence prefix test. -/
def startswith (p s : String) : Bool :=
  p.data.isPrefixOf s.data

/-- `prefix_sum` (analyzers.py): 0 for an empty prefix list; otherwise the sum
of `balance` over the rows whose account starts with at least one of the
prefixes (the pandas boolean mask built by OR-ing `str.startswith` columns). -/
def prefix_sum (df : List TrialBalanceRow) (prefixes : List String) : ℚ :=
  if prefixes = [] then 0
  else
    ((df.filter fun r =>
        prefixes.foldl (fun acc p => acc || startswith p r.account) false).map
      TrialBalanceRow.balance).sum

/-- The `pcg_mapping` section of the configuration: an ordered list of account
prefixes per semantic bucket. The source config keys are the singular
`*_prefix` names; each field here keeps that key with a plural spelling. -/
structure PcgMapping where
  sales_prefixes : List String
  purchases_prefixes : List String
  external_charges_prefixes : List String
  taxes_prefixes : List String
  payroll_prefixes : List String
  depreciation_prefixes : List String
  financial_income_prefixes : List String
  financial_expenses_prefixes : List String
  exceptional_income_prefixes : List String
  exceptional_expenses_prefixes : List String
  cash_prefixes : List String
  receivables_prefixes : List String
  payables_prefixes : List String
deriving DecidableEq

/-- The `vat` section of the configuration (source keys
`collected_accounts_prefix`, `deductible_accounts_prefix`). -/
structure VatParams where
  collected_accounts_prefixes : List String
  deductible_accounts_prefixes : List String
deriving DecidableEq

/-- The `cit` section of the configuration. Every constant is optional, read by
the engine with `p.get(key, default)`; `none` models an absent key. -/
structure CitParams where
  sme_turnover_ceiling : Option ℚ := none
  sme_reduced_threshold : Option ℚ := none
  standard_rate : Option ℚ := none
  sme_reduced_rate : Option ℚ := none
  social_contribution_rate : Option ℚ := none
  social_contribution_turnover_threshold : Option ℚ := none
  social_contribution_allowance : Option ℚ := none
deriving DecidableEq

/-- The whole configuration document (`rates_fr_2025.yaml`), already loaded. -/
structure Params where
  pcg_mapping : PcgMapping
  vat : VatParams
  cit : CitParams
deriving DecidableEq

/-- The KPI output record (models.py); monetary outputs rounded to 2 decimals,
`ebitda_margin_pct` null when revenue is zero. -/
structure KPI where
  revenue : ℚ
  gross_margin : ℚ
  ebitda_approx : ℚ
  ebitda_margin_pct : Option ℚ
  net_result : ℚ
  working_capital_need : Option ℚ
  dso_days : Option ℚ := none
  dpo_days : Option ℚ := none
  cash : Option ℚ := none
deriving DecidableEq

/-- The `components` dict built by `compute_kpi`: the unrounded bucket sums. -/
structure Components where
  revenue : ℚ
  purchases : ℚ
  external : ℚ
  taxes : ℚ
  payroll : ℚ
  depreciation : ℚ
  fin_income : ℚ
  fin_exp : ℚ
  excep_income : ℚ
  excep_exp : ℚ
  cash : ℚ
  receivables : ℚ
  payables : ℚ
deriving DecidableEq

/-- `compute_kpi` (analyzers.py): classifies rows into buckets by PCG prefix,
flips the sign of the credit-balanced buckets, derives the KPIs and returns the
rounded KPI record together with the raw component sums. -/
def compute_kpi (df : List TrialBalanceRow) (pcg : PcgMapping) : KPI × Components :=
  let revenue := prefix_sum df pcg.sales_prefixes * (-1)
  let purchases := prefix_sum df pcg.purchases_prefixes
  let external := prefix_sum df pcg.external_charges_prefixes
  let taxes := prefix_sum df pcg.taxes_prefixes
  let payroll := prefix_sum df pcg.payroll_prefixes
  let depreciation := prefix_sum df pcg.depreciation_prefixes
  let fin_income := prefix_sum df pcg.financial_income_prefixes * (-1)
  let fin_exp := prefix_sum df pcg.financial_expenses_prefixes
  let excep_income := prefix_sum df pcg.exceptional_income_prefixes * (-1)
  let excep_exp := prefix_sum df pcg.exceptional_expenses_prefixes
  let gross_margin := revenue - purchases
  let ebitda_approx := revenue - purchases - external - taxes - payroll
  let net_result := ebitda_approx - depreciation + fin_income - fin_exp + excep_income - excep_exp
  let cash := prefix_sum df pcg.cash_prefixes
  let receivables := prefix_sum df pcg.receivables_prefixes
  let payables := prefix_sum df pcg.payables_prefixes
  let working_capital_need := receivables - payables
  let ebitda_margin : Option ℚ :=
    if revenue = 0 then none else some (ebitda_approx / revenue * 100)
  ({ revenue := round2 revenue
     gross_margin := round2 gross_margin
     ebitda_approx := round2 ebitda_approx
     ebitda_margin_pct := ebitda_margin.map round2
     net_result := round2 net_result
     working_capital_need := some (round2 working_capital_need)
     dso_days := none
     dpo_days := none
     cash := some (round2 cash) },
   { revenue := revenue, purchases := purchases, external := external
     taxes := taxes, payroll := payroll, depreciation := depreciation
     fin_income := fin_income, fin_exp := fin_exp
     excep_income := excep_income, excep_exp := excep_exp
     cash := cash, receivables := receivables, payables := payables })

/-- `compute_vat` (analyzers.py): sums the collected and deductible VAT
buckets; when the two sums are jointly negligible (`abs(collected) +
abs(deductible) < 1e-6`) returns null, otherwise the net balance
`round(-collected - deductible, 2)`. -/
def compute_vat (df : List TrialBalanceRow) (vat : VatParams) : Option ℚ :=
  if |prefix_sum df vat.collected_accounts_prefixes|
      + |prefix_sum df vat.deductible_accounts_prefixes| < 1/1000000 then none
  else
    some (round2 (-(prefix_sum df vat.collected_accounts_prefixes)
      - prefix_sum df vat.deductible_accounts_prefixes))

/-- The dict returned by `France2025TaxEngine.estimate`; the `details` entries
are the `detail_*` fields. -/
structure FranceTaxResult where
  eligible_sme_reduced_rate : Option Bool
  corporate_income_tax : ℚ
  social_contribution_on_cit : ℚ
  notes : String
  reduced_base : ℚ
  standard_base : ℚ
  detail_standard_rate : ℚ
  detail_reduced_rate : ℚ
  detail_sc_rate : ℚ
deriving DecidableEq

/-- `France2025TaxEngine.estimate` (tax/france_2025.py). -/
def France2025TaxEngine.estimate (profit_before_tax : ℚ) (turnover : Option ℚ)
    (p : CitParams) : FranceTaxResult :=
  let profit := max 0 profit_before_tax
  let eligible : Option Bool :=
    turnover.map fun t => decide (t ≤ p.sme_turnover_ceiling.getD 10000000)
  let reduced_cap := p.sme_reduced_threshold.getD 42500
  let standard_rate := p.standard_rate.getD (25/100)
  let reduced_rate := p.sme_reduced_rate.getD (15/100)
  let reduced_base := if eligible = some true then min profit reduced_cap else 0
  let standard_base := profit - reduced_base
  let cit := reduced_base * reduced_rate + standard_base * standard_rate
  let sc_rate := p.social_contribution_rate.getD (33/1000)
  let sc_turnover_thr := p.social_contribution_turnover_threshold.getD 7630000
  let sc_allowance := p.social_contribution_allowance.getD 763000
  let sc : ℚ :=
    match turnover with
    | none => 0
    | some t =>
        if t > sc_turnover_thr ∧ cit > sc_allowance then
          sc_rate * (cit - sc_allowance)
        else 0
  { eligible_sme_reduced_rate := eligible
    corporate_income_tax := round2 cit
    social_contribution_on_cit := round2 sc
    notes := "Calcul pédagogique simplifié, à valider avec un expert-comptable."
    reduced_base := reduced_base
    standard_base := standard_base
    detail_standard_rate := standard_rate
    detail_reduced_rate := reduced_rate
    detail_sc_rate := sc_rate }

/-- A suggestion, kept as its stable `id` code (titles/rationales/URLs are
static content). -/
structure Suggestion where
  id : String
deriving DecidableEq

/-- The assembled `TaxEstimate` record (models.py); the free-form `details`
dict is not modelled. -/
structure TaxEstimate where
  country : String := "FR"
  year : Nat := 2025
  profit_before_tax : ℚ
  eligible_sme_reduced_rate : Option Bool := none
  turnover : Option ℚ := none
  corporate_income_tax : ℚ := 0
  social_contribution_on_cit : ℚ := 0
  vat_balance : Option ℚ := none
  notes : Option String := none
deriving DecidableEq

/-- `suggestions` (analyzers.py): the fixed, ordered battery of advisory
rules; each rule appends its suggestion exactly when its predicate holds. -/
def suggestions (kpi : KPI) (tax : TaxEstimate) (components : Components) :
    List Suggestion :=
  (if (match kpi.ebitda_margin_pct with
       | some m => decide (m < 10)
       | none => false) then [{ id := "EBITDA_LOW" }] else []) ++
  (if pyOrOpt kpi.working_capital_need 0 > 1/10 * pyOrQ kpi.revenue 1 then
    [{ id := "WCR_HIGH" }] else []) ++
  (if tax.eligible_sme_reduced_rate = some true then
    [{ id := "CIT_15_SME" }] else []) ++
  (if components.external + components.payroll > 4/10 * pyOrQ kpi.revenue 1 then
    [{ id := "CIR_CII_CHECK" }] else []) ++
  (if (match tax.vat_balance with
       | some v => decide (v > 0)
       | none => false) then [{ id := "VAT_NET_PAYABLE" }] else [])

/-- The fixed warning appended when no turnover was supplied. -/
def missingTurnoverWarning : String :=
  "Le chiffre d’affaires n’a pas été fourni : l’éligibilité au taux réduit d’IS et la contribution sociale sont inférées de manière limitée."

/-- The terminal output of one analysis run (models.py). -/
structure AnalysisResult where
  kpi : KPI
  tax : TaxEstimate
  suggestions : List Suggestion
  warnings : List String
deriving DecidableEq

/-- `analyze_trial_balance` (analyzers.py): normalize, aggregate KPIs,
estimate IS, compute VAT, assemble the tax estimate, run the advisory rules
and attach the missing-turnover warning. -/
def analyze_trial_balance (df : RawTable) (turnover : Option ℚ)
    (params : Params) : Except String AnalysisResult := do
  let rows ← normalize_trial_balance df
  let (kpi, components) := compute_kpi rows params.pcg_mapping
  let tax_dict := France2025TaxEngine.estimate kpi.net_result turnover params.cit
  let vat_balance := compute_vat rows params.vat
  let tax : TaxEstimate :=
    { profit_before_tax := kpi.net_result
      turnover := turnover
      corporate_income_tax := tax_dict.corporate_income_tax
      social_contribution_on_cit := tax_dict.social_contribution_on_cit
      eligible_sme_reduced_rate := tax_dict.eligible_sme_reduced_rate
      vat_balance := vat_balance
      notes := some tax_dict.notes }
  let suggs := suggestions kpi tax components
  let warnings := if turnover = none then [missingTurnoverWarning] else []
  return { kpi := kpi, tax := tax, suggestions := suggs, warnings := warnings }

/-- Concrete PCG mapping following the French chart-of-accounts conventions of
the configuration (used to instantiate the general theorems). -/
def exPcg : PcgMapping :=
  { sales_prefixes := ["70"]
    purchases_prefixes := ["60"]
    external_charges_prefixes := ["61", "62"]
    taxes_prefixes := ["63"]
    payroll_prefixes := ["64"]
    depreciation_prefixes := ["68"]
    financial_income_prefixes := ["76"]
    financial_expenses_prefixes := ["66"]
    exceptional_income_prefixes := ["77"]
    exceptional_expenses_prefixes := ["67"]
    cash_prefixes := ["512"]
    receivables_prefixes := ["411"]
    payables_prefixes := ["401"] }

/-- Concrete VAT account configuration. -/
def exVat : VatParams :=
  { collected_accounts_prefixes := ["44571"]
    deductible_accounts_prefixes := ["44566"] }

/-- Concrete full configuration with an empty `cit` section (every constant
falls back to its coded default). -/
def exParams : Params := { pcg_mapping := exPcg, vat := exVat, cit := {} }

/-- The input table of the spec's first scenario: sales 100000 (credit),
purchases 40000 and payroll 20000 (debit). -/
def exTable : RawTable :=
  { columns := ["account", "debit", "credit"]
    rows := [[Cell.text "701", Cell.num 0, Cell.num 100000],
             [Cell.text "6061", Cell.num 40000, Cell.num 0],
             [Cell.text "641", Cell.num 20000, Cell.num 0]] }

lemma foldl_or_startswith (ps : List String) (a : String) (b : Bool) :
    ps.foldl (fun acc p => acc || startswith p a) b
      = (b || ps.any fun p => startswith p a) := by
  induction ps generalizing b with
  | nil => simp
  | cons p ps ih => simp [List.foldl_cons, ih, Bool.or_assoc]

/-- A row matches the prefix list when some prefix of the list is a character
prefix of its account code. -/
def matchesPrefixList (r : TrialBalanceRow) (ps : List String) : Prop :=
  ∃ p ∈ ps, p.data <+: r.account.data

instance (r : TrialBalanceRow) (ps : List String) :
    Decidable (matchesPrefixList r ps) := by
  unfold matchesPrefixList; infer_instance

lemma prefix_sum_eq_filter (df : List TrialBalanceRow) (ps : List String) :
    prefix_sum df ps
      = ((df.filter fun r => decide (matchesPrefixList r ps)).map
          TrialBalanceRow.balance).sum := by
  unfold prefix_sum
  rcases eq_or_ne ps [] with h | h
  · subst h
    simp [matchesPrefixList]
  · rw [if_neg h]
    congr 2
    apply List.filter_congr
    intro r _
    rw [foldl_or_startswith]
    simp only [Bool.false_or]
    rw [Bool.eq_iff_iff]
    simp only [List.any_eq_true, decide_eq_true_eq, matchesPrefixList, startswith,
      List.isPrefixOf_iff_prefix]

lemma cit15_mem_suggestions (kpi : KPI) (tax : TaxEstimate) (c : Components) :
    (⟨"CIT_15_SME"⟩ : Suggestion) ∈ suggestions kpi tax c ↔
      tax.eligible_sme_reduced_rate = some true := by
  unfold suggestions
  split_ifs <;> simp_all [Suggestion.mk.injEq]

lemma wcr_mem_suggestions (kpi : KPI) (tax : TaxEstimate) (c : Components) :
    (⟨"WCR_HIGH"⟩ : Suggestion) ∈ suggestions kpi tax c ↔
      pyOrOpt kpi.working_capital_need 0 > 1/10 * pyOrQ kpi.revenue 1 := by
  unfold suggestions
  split_ifs <;> simp_all [Suggestion.mk.injEq]

lemma cir_mem_suggestions (kpi : KPI) (tax : TaxEstimate) (c : Components) :
    (⟨"CIR_CII_CHECK"⟩ : Suggestion) ∈ suggestions kpi tax c ↔
      c.external + c.payroll > 4/10 * pyOrQ kpi.revenue 1 := by
  unfold suggestions
  split_ifs <;> simp_all [Suggestion.mk.injEq]

lemma round2_zero : round2 0 = 0 := by
  norm_num [round2, roundHalfEven]

/-- Claim C1: `France2025TaxEngine.estimate` clamps `profit = max(0,
profit_before_tax)`; when the SME reduced rate applies it taxes `min(profit,
reduced_cap)` at the reduced rate and the remainder at the standard rate, and
when eligibility is false or unknown it taxes the entire clamped profit at the
standard rate; `corporate_income_tax` is that amount rounded to 2 decimals, and
every negative `profit_before_tax` yields a corporate income tax of exactly 0
(given the config's nonnegative reduced cap; the coded default is 42500). -/
theorem corporate_income_tax_formula (pbt : ℚ) (turnover : Option ℚ) (p : CitParams) :
    (turnover = none →
      (France2025TaxEngine.estimate pbt turnover p).corporate_income_tax
        = round2 (max 0 pbt * p.standard_rate.getD (25/100))) ∧
    (∀ t, turnover = some t → ¬ t ≤ p.sme_turnover_ceiling.getD 10000000 →
      (France2025TaxEngine.estimate pbt turnover p).corporate_income_tax
        = round2 (max 0 pbt * p.standard_rate.getD (25/100))) ∧
    (∀ t, turnover = some t → t ≤ p.sme_turnover_ceiling.getD 10000000 →
      (France2025TaxEngine.estimate pbt turnover p).corporate_income_tax
        = round2 (min (max 0 pbt) (p.sme_reduced_threshold.getD 42500)
              * p.sme_reduced_rate.getD (15/100)
            + (max 0 pbt - min (max 0 pbt) (p.sme_reduced_threshold.getD 42500))
              * p.standard_rate.getD (25/100))) ∧
    (pbt < 0 → 0 ≤ p.sme_reduced_threshold.getD 42500 →
      (France2025TaxEngine.estimate pbt turnover p).corporate_income_tax = 0) := by
  unfold France2025TaxEngine.estimate
  refine ⟨?_, ?_, ?_, ?_⟩
  · rintro rfl
    simp
  · rintro t rfl h
    simp [h]
  · rintro t rfl h
    simp [h]
  · intro hneg hcap
    have hmax : max 0 pbt = 0 := by
      simp [max_eq_left, le_of_lt hneg]
    simp only [hmax]
    rcases turnover with _ | t
    · simp [round2_zero]
    · by_cases h : t ≤ p.sme_turnover_ceiling.getD 10000000
      · have hmin : min (0 : ℚ) (p.sme_reduced_threshold.getD 42500) = 0 :=
          min_eq_left hcap
        simp [h, hmin, round2_zero]
      · simp [h, round2_zero]

/-- Witness for claim C1: the spec scenario `profit_before_tax = -5000` with no
turnover and the default constants yields a corporate income tax of exactly 0. -/
theorem corporate_income_tax_formula_witness :
    (France2025TaxEngine.estimate (-5000) none {}).corporate_income_tax = 0 :=
  (corporate_income_tax_formula (-5000) none {}).2.2.2 (by norm_num) (by norm_num)

/-- Claim C2: the social surtax is nonzero only when the turnover is known,
exceeds its threshold (default 7,630,000) and the computed corporate income tax
(`reduced_base * reduced_rate + standard_base * standard_rate`, exposed in the
result's details) exceeds the allowance (default 763,000); in that case it is
`rate * (cit - allowance)` (default rate 0.033) rounded to 2 decimals, and in
every other case it is exactly 0. -/
theorem social_contribution_conditions (pbt : ℚ) (turnover : Option ℚ) (p : CitParams) :
    (∀ t, turnover = some t →
      t > p.social_contribution_turnover_threshold.getD 7630000 →
      (France2025TaxEngine.estimate pbt turnover p).reduced_base
          * (France2025TaxEngine.estimate pbt turnover p).detail_reduced_rate
        + (France2025TaxEngine.estimate pbt turnover p).standard_base
          * (France2025TaxEngine.estimate pbt turnover p).detail_standard_rate
        > p.social_contribution_allowance.getD 763000 →
      (France2025TaxEngine.estimate pbt turnover p).social_contribution_on_cit
        = round2 (p.social_contribution_rate.getD (33/1000)
            * ((France2025TaxEngine.estimate pbt turnover p).reduced_base
                  * (France2025TaxEngine.estimate pbt turnover p).detail_reduced_rate
                + (France2025TaxEngine.estimate pbt turnover p).standard_base
                  * (France2025TaxEngine.estimate pbt turnover p).detail_standard_rate
                - p.social_contribution_allowance.getD 763000))) ∧
    (turnover = none →
      (France2025TaxEngine.estimate pbt turnover p).social_contribution_on_cit = 0) ∧
    (∀ t, turnover = some t →
      ¬(t > p.social_contribution_turnover_threshold.getD 7630000 ∧
        (France2025TaxEngine.estimate pbt turnover p).reduced_base
            * (France2025TaxEngine.estimate pbt turnover p).detail_reduced_rate
          + (France2025TaxEngine.estimate pbt turnover p).standard_base
            * (France2025TaxEngine.estimate pbt turnover p).detail_standard_rate
          > p.social_contribution_allowance.getD 763000) →
      (France2025TaxEngine.estimate pbt turnover p).social_contribution_on_cit = 0) ∧
    ((France2025TaxEngine.estimate pbt turnover p).social_contribution_on_cit ≠ 0 →
      ∃ t, turnover = some t ∧
        t > p.social_contribution_turnover_threshold.getD 7630000 ∧
        (France2025TaxEngine.estimate pbt turnover p).reduced_base
            * (France2025TaxEngine.estimate pbt turnover p).detail_reduced_rate
          + (France2025TaxEngine.estimate pbt turnover p).standard_base
            * (France2025TaxEngine.estimate pbt turnover p).detail_standard_rate
          > p.social_contribution_allowance.getD 763000) := by
  have main :
      (∀ t, turnover = some t →
        t > p.social_contribution_turnover_threshold.getD 7630000 →
        (France2025TaxEngine.estimate pbt turnover p).reduced_base
            * (France2025TaxEngine.estimate pbt turnover p).detail_reduced_rate
          + (France2025TaxEngine.estimate pbt turnover p).standard_base
            * (France2025TaxEngine.estimate pbt turnover p).detail_standard_rate
          > p.social_contribution_allowance.getD 763000 →
        (France2025TaxEngine.estimate pbt turnover p).social_contribution_on_cit
          = round2 (p.social_contribution_rate.getD (33/1000)
              * ((France2025TaxEngine.estimate pbt turnover p).reduced_base
                    * (France2025TaxEngine.estimate pbt turnover p).detail_reduced_rate
                  + (France2025TaxEngine.estimate pbt turnover p).standard_base
                    * (France2025TaxEngine.estimate pbt turnover p).detail_standard_rate
                  - p.social_contribution_allowance.getD 763000))) ∧
      (turnover = none →
        (France2025TaxEngine.estimate pbt turnover p).social_contribution_on_cit = 0) ∧
      (∀ t, turnover = some t →
        ¬(t > p.social_contribution_turnover_threshold.getD 7630000 ∧
          (France2025TaxEngine.estimate pbt turnover p).reduced_base
              * (France2025TaxEngine.estimate pbt turnover p).detail_reduced_rate
            + (France2025TaxEngine.estimate pbt turnover p).standard_base
              * (France2025TaxEngine.estimate pbt turnover p).detail_standard_rate
            > p.social_contribution_allowance.getD 763000) →
        (France2025TaxEngine.estimate pbt turnover p).social_contribution_on_cit = 0) := by
    unfold France2025TaxEngine.estimate
    refine ⟨?_, ?_, ?_⟩
    · rintro t rfl ht hcit
      simp only at hcit ⊢
      rw [if_pos ⟨ht, hcit⟩]
    · rintro rfl
      simp [round2_zero]
    · rintro t rfl hn
      simp only at hn ⊢
      rw [if_neg hn, round2_zero]
  refine ⟨main.1, main.2.1, main.2.2, ?_⟩
  intro hne
  rcases turnover with _ | t
  · exact absurd (main.2.1 rfl) hne
  · by_cases h : t > p.social_contribution_turnover_threshold.getD 7630000 ∧
      (France2025TaxEngine.estimate pbt (some t) p).reduced_base
          * (France2025TaxEngine.estimate pbt (some t) p).detail_reduced_rate
        + (France2025TaxEngine.estimate pbt (some t) p).standard_base
          * (France2025TaxEngine.estimate pbt (some t) p).detail_standard_rate
        > p.social_contribution_allowance.getD 763000
    · exact ⟨t, rfl, h.1, h.2⟩
    · exact absurd (main.2.2 t rfl h) hne

/-- Witness for claim C2: the spec scenario with turnover 8,000,000 and profit
4,000,000 under the default constants: the internal corporate income tax is
995,750 and the surtax is `0.033 * (995750 - 763000) = 7680.75`. -/
theorem social_contribution_conditions_witness :
    (France2025TaxEngine.estimate 4000000 (some 8000000) {}).social_contribution_on_cit
      = 768075/100 := by
  have h := (social_contribution_conditions 4000000 (some 8000000) {}).1 8000000 rfl
    (by norm_num) (by norm_num [France2025TaxEngine.estimate])
  rw [h]
  norm_num [France2025TaxEngine.estimate, round2, roundHalfEven]

/-- Claim C4: `prefix_sum` returns the sum of `balance` over exactly the rows
whose account starts with at least one prefix of the list (logical OR,
case-sensitive, exact-prefix matching); an empty prefix list returns 0; a
non-empty list matching no row returns 0; account "512000" matches prefix
"512" while "999512" does not. -/
theorem prefix_sum_characterization (df : List TrialBalanceRow) (ps : List String) :
    prefix_sum df ps
      = ((df.filter fun r => decide (matchesPrefixList r ps)).map
          TrialBalanceRow.balance).sum ∧
    prefix_sum df [] = 0 ∧
    ((∀ r ∈ df, ¬ matchesPrefixList r ps) → prefix_sum df ps = 0) ∧
    startswith "512" "512000" = true ∧
    startswith "512" "999512" = false := by
  refine ⟨prefix_sum_eq_filter df ps, by simp [prefix_sum], ?_, by decide, by decide⟩
  intro h
  rw [prefix_sum_eq_filter]
  have : df.filter (fun r => decide (matchesPrefixList r ps)) = [] := by
    apply List.filter_eq_nil_iff.mpr
    intro r hr
    simpa using h r hr
  simp [this]

/-- Witness for claim C4: a single row whose account "512000" matches no
prefix of the list ["999"] sums to 0. -/
theorem prefix_sum_characterization_witness :
    prefix_sum [⟨"512000", 1, 0, 1⟩] ["999"] = 0 :=
  (prefix_sum_characterization [⟨"512000", 1, 0, 1⟩] ["999"]).2.2.1 (by decide)

/-- Claim C9: when the prefix list contains the empty string, every row
matches, and `prefix_sum` returns the sum of `balance` over all rows. -/
theorem prefix_sum_empty_prefix (df : List TrialBalanceRow) (ps : List String)
    (h : "" ∈ ps) :
    prefix_sum df ps = (df.map TrialBalanceRow.balance).sum := by
  unfold prefix_sum
  rw [if_neg (List.ne_nil_of_mem h)]
  have : df.filter
      (fun r => ps.foldl (fun acc p => acc || startswith p r.account) false) = df := by
    apply List.filter_eq_self.mpr
    intro r _
    rw [foldl_or_startswith]
    simp only [Bool.false_or, List.any_eq_true]
    exact ⟨"", h, by simp [startswith]⟩
  rw [this]

/-- Witness for claim C9: with the prefix list ["", "44"], both rows are
summed although neither account starts with "44". -/
theorem prefix_sum_empty_prefix_witness :
    prefix_sum [⟨"701", 0, 5, -5⟩, ⟨"999512", 7, 0, 7⟩] ["", "44"] = 2 := by
  have h := prefix_sum_empty_prefix [⟨"701", 0, 5, -5⟩, ⟨"999512", 7, 0, 7⟩]
    ["", "44"] (by decide)
  rw [h]
  norm_num

/-- Claim C3 (amended): `compute_vat` returns null exactly when
`|collected| + |deductible| < 1e-6` (the code's joint threshold, not
"both sums within 1e-6 of zero" separately); otherwise it returns
`round(-collected - deductible, 2)`; a row set with no account matching
either VAT prefix list yields null; offsetting nonzero sums yield a numeric
balance only when their joint magnitude reaches the 1e-6 threshold. -/
theorem compute_vat_null_iff (df : List TrialBalanceRow) (vat : VatParams) :
    (compute_vat df vat = none ↔
      |prefix_sum df vat.collected_accounts_prefixes|
        + |prefix_sum df vat.deductible_accounts_prefixes| < 1/1000000) ∧
    (¬ (|prefix_sum df vat.collected_accounts_prefixes|
        + |prefix_sum df vat.deductible_accounts_prefixes| < 1/1000000) →
      compute_vat df vat
        = some (round2 (-(prefix_sum df vat.collected_accounts_prefixes)
            - prefix_sum df vat.deductible_accounts_prefixes))) ∧
    ((∀ r ∈ df, ¬ matchesPrefixList r vat.collected_accounts_prefixes ∧
        ¬ matchesPrefixList r vat.deductible_accounts_prefixes) →
      compute_vat df vat = none) := by
  refine ⟨?_, ?_, ?_⟩
  · unfold compute_vat
    split_ifs with h
    · exact ⟨fun _ => h, fun _ => rfl⟩
    · exact ⟨fun hco => hco.elim, fun hc => absurd hc h⟩
  · intro h
    unfold compute_vat
    rw [if_neg h]
  · intro h
    have hc : prefix_sum df vat.collected_accounts_prefixes = 0 :=
      (prefix_sum_characterization df _).2.2.1 fun r hr => (h r hr).1
    have hd : prefix_sum df vat.deductible_accounts_prefixes = 0 :=
      (prefix_sum_characterization df _).2.2.1 fun r hr => (h r hr).2
    unfold compute_vat
    rw [if_pos]
    rw [hc, hd]
    norm_num

/-- Witness for claim C3 (amended): a row set whose only account "512" matches
neither VAT prefix list yields a null VAT balance. -/
theorem compute_vat_null_iff_witness :
    compute_vat [⟨"512", 3, 0, 3⟩] exVat = none :=
  (compute_vat_null_iff [⟨"512", 3, 0, 3⟩] exVat).2.2 (by decide)

/-- Counterexample to claim C3 as stated: exactly offsetting nonzero
collected/deductible sums of magnitude 4e-7 yield a null (not numeric) VAT
balance, and two sums each within 1e-6 of zero (6e-7 each) yield a numeric
(not null) balance, so "null exactly when both sums are within 1e-6 of zero"
and "offsetting nonzero sums never yield null" are both false on the code. -/
theorem compute_vat_claim_counterexample :
    (prefix_sum [⟨"44571", 0, 4/10000000, -(4/10000000)⟩,
          ⟨"44566", 4/10000000, 0, 4/10000000⟩] exVat.collected_accounts_prefixes
        = -prefix_sum [⟨"44571", 0, 4/10000000, -(4/10000000)⟩,
          ⟨"44566", 4/10000000, 0, 4/10000000⟩] exVat.deductible_accounts_prefixes ∧
      prefix_sum [⟨"44571", 0, 4/10000000, -(4/10000000)⟩,
          ⟨"44566", 4/10000000, 0, 4/10000000⟩] exVat.deductible_accounts_prefixes ≠ 0 ∧
      compute_vat [⟨"44571", 0, 4/10000000, -(4/10000000)⟩,
          ⟨"44566", 4/10000000, 0, 4/10000000⟩] exVat = none) ∧
    (|prefix_sum [⟨"44571", 0, 0, 6/10000000⟩, ⟨"44566", 0, 0, 6/10000000⟩]
          exVat.collected_accounts_prefixes| < 1/1000000 ∧
      |prefix_sum [⟨"44571", 0, 0, 6/10000000⟩, ⟨"44566", 0, 0, 6/10000000⟩]
          exVat.deductible_accounts_prefixes| < 1/1000000 ∧
      compute_vat [⟨"44571", 0, 0, 6/10000000⟩, ⟨"44566", 0, 0, 6/10000000⟩] exVat
        ≠ none) := by
  have h1 : startswith "44571" "44571" = true := by decide
  have h2 : startswith "44566" "44571" = false := by decide
  have h3 : startswith "44571" "44566" = false := by decide
  have h4 : startswith "44566" "44566" = true := by decide
  refine ⟨⟨?_, ?_, ?_⟩, ?_, ?_, ?_⟩ <;>
    simp [compute_vat, prefix_sum, exVat, List.filter, h1, h2, h3, h4] <;>
    norm_num [abs]

lemma estimate_eligible (pbt : ℚ) (turnover : Option ℚ) (p : CitParams) :
    (France2025TaxEngine.estimate pbt turnover p).eligible_sme_reduced_rate
      = turnover.map fun t => decide (t ≤ p.sme_turnover_ceiling.getD 10000000) := rfl

/-- Claim C5: SME eligibility is tri-state and drives the CIT_15_SME rule
exactly: in every successful analysis run, an unknown turnover yields a null
eligibility and the suggestion is absent; a turnover above the ceiling
(default 10,000,000) yields false and the suggestion is absent; a turnover at
or below the ceiling yields true and the suggestion is present. -/
theorem sme_tristate (df : RawTable) (params : Params) :
    (∀ res, analyze_trial_balance df none params = .ok res →
      res.tax.eligible_sme_reduced_rate = none ∧
      (⟨"CIT_15_SME"⟩ : Suggestion) ∉ res.suggestions) ∧
    (∀ t res, ¬ t ≤ params.cit.sme_turnover_ceiling.getD 10000000 →
      analyze_trial_balance df (some t) params = .ok res →
      res.tax.eligible_sme_reduced_rate = some false ∧
      (⟨"CIT_15_SME"⟩ : Suggestion) ∉ res.suggestions) ∧
    (∀ t res, t ≤ params.cit.sme_turnover_ceiling.getD 10000000 →
      analyze_trial_balance df (some t) params = .ok res →
      res.tax.eligible_sme_reduced_rate = some true ∧
      (⟨"CIT_15_SME"⟩ : Suggestion) ∈ res.suggestions) := by
  refine ⟨?_, ?_, ?_⟩
  · intro res h
    cases hn : normalize_trial_balance df with
    | error e =>
      unfold analyze_trial_balance at h
      rw [hn] at h
      exact absurd h (by simp [Bind.bind, Except.bind])
    | ok rows =>
      unfold analyze_trial_balance at h
      rw [hn] at h
      obtain rfl := (Except.ok.inj h)
      constructor
      · rfl
      · rw [cit15_mem_suggestions]
        simp [estimate_eligible]
  · intro t res hle h
    cases hn : normalize_trial_balance df with
    | error e =>
      unfold analyze_trial_balance at h
      rw [hn] at h
      exact absurd h (by simp [Bind.bind, Except.bind])
    | ok rows =>
      unfold analyze_trial_balance at h
      rw [hn] at h
      obtain rfl := (Except.ok.inj h)
      constructor
      · simp [estimate_eligible, hle]
      · rw [cit15_mem_suggestions]
        simp [estimate_eligible, hle]
  · intro t res hle h
    cases hn : normalize_trial_balance df with
    | error e =>
      unfold analyze_trial_balance at h
      rw [hn] at h
      exact absurd h (by simp [Bind.bind, Except.bind])
    | ok rows =>
      unfold analyze_trial_balance at h
      rw [hn] at h
      obtain rfl := (Except.ok.inj h)
      constructor
      · simp [estimate_eligible, hle]
      · rw [cit15_mem_suggestions]
        simp [estimate_eligible, hle]

/-- Witness for claim C5: the spec scenario (sales 100000, purchases 40000,
payroll 20000, turnover 100000 at or below the ceiling) yields a true
eligibility and the CIT_15_SME suggestion. -/
theorem sme_tristate_witness :
    ∃ res, analyze_trial_balance exTable (some 100000) exParams = .ok res ∧
      res.tax.eligible_sme_reduced_rate = some true ∧
      (⟨"CIT_15_SME"⟩ : Suggestion) ∈ res.suggestions := by
  have h := (sme_tristate exTable exParams).2.2 100000 _
    (show (100000 : ℚ) ≤ 10000000 by norm_num) rfl
  exact ⟨_, rfl, h.1, h.2⟩

/-- Claim C7: whenever normalization succeeds, `analyze_trial_balance`
returns a result for any turnover; its warnings list is exactly the one fixed
limited-inference warning when the turnover is missing, and empty when the
turnover was supplied. -/
theorem analyze_warnings (df : RawTable) (turnover : Option ℚ) (params : Params)
    (h : (normalize_trial_balance df).isOk = true) :
    ∃ res, analyze_trial_balance df turnover params = .ok res ∧
      res.warnings = if turnover = none then [missingTurnoverWarning] else [] := by
  cases hn : normalize_trial_balance df with
  | error e => rw [hn] at h; simp [Except.isOk, Except.toBool] at h
  | ok rows =>
    unfold analyze_trial_balance
    rw [hn]
    exact ⟨_, rfl, rfl⟩

/-- Witness for claim C7: the spec scenario rows with no turnover yield
exactly the one fixed warning. -/
theorem analyze_warnings_witness :
    ∃ res, analyze_trial_balance exTable none exParams = .ok res ∧
      res.warnings = [missingTurnoverWarning] := by
  obtain ⟨res, h1, h2⟩ := analyze_warnings exTable none exParams rfl
  exact ⟨res, h1, by simpa using h2⟩

lemma compute_kpi_margin_none_iff (df : List TrialBalanceRow) (pcg : PcgMapping) :
    (compute_kpi df pcg).1.ebitda_margin_pct = none ↔
      prefix_sum df pcg.sales_prefixes * (-1) = 0 := by
  unfold compute_kpi
  by_cases h : prefix_sum df pcg.sales_prefixes * (-1) = 0 <;> simp [h]

lemma compute_kpi_revenue (df : List TrialBalanceRow) (pcg : PcgMapping) :
    (compute_kpi df pcg).1.revenue
      = round2 (prefix_sum df pcg.sales_prefixes * (-1)) := rfl

lemma compute_kpi_wcn (df : List TrialBalanceRow) (pcg : PcgMapping) :
    (compute_kpi df pcg).1.working_capital_need
      = some (round2 (prefix_sum df pcg.receivables_prefixes
          - prefix_sum df pcg.payables_prefixes)) := rfl

lemma compute_kpi_external (df : List TrialBalanceRow) (pcg : PcgMapping) :
    (compute_kpi df pcg).2.external
      = prefix_sum df pcg.external_charges_prefixes := rfl

lemma compute_kpi_payroll (df : List TrialBalanceRow) (pcg : PcgMapping) :
    (compute_kpi df pcg).2.payroll = prefix_sum df pcg.payroll_prefixes := rfl

/-- Claim C6: when the revenue bucket sum is zero, the KPI aggregation (a
total function in this embedding) reports a null EBITDA margin — and only
then — and the WCR_HIGH and CIR_CII_CHECK rules compare against thresholds
with 1 substituted for the falsy revenue. -/
theorem zero_revenue_safety (df : List TrialBalanceRow) (pcg : PcgMapping)
    (tax : TaxEstimate) :
    ((compute_kpi df pcg).1.ebitda_margin_pct = none ↔
      prefix_sum df pcg.sales_prefixes * (-1) = 0) ∧
    (prefix_sum df pcg.sales_prefixes * (-1) = 0 →
      ((⟨"WCR_HIGH"⟩ : Suggestion) ∈
          suggestions (compute_kpi df pcg).1 tax (compute_kpi df pcg).2 ↔
        pyOrOpt (compute_kpi df pcg).1.working_capital_need 0 > 1/10 * 1) ∧
      ((⟨"CIR_CII_CHECK"⟩ : Suggestion) ∈
          suggestions (compute_kpi df pcg).1 tax (compute_kpi df pcg).2 ↔
        (compute_kpi df pcg).2.external + (compute_kpi df pcg).2.payroll
          > 4/10 * 1)) := by
  refine ⟨compute_kpi_margin_none_iff df pcg, ?_⟩
  intro h
  have hrev : (compute_kpi df pcg).1.revenue = 0 := by
    rw [compute_kpi_revenue, h, round2_zero]
  have hpy : pyOrQ (compute_kpi df pcg).1.revenue 1 = 1 := by
    rw [hrev]
    rfl
  constructor
  · rw [wcr_mem_suggestions, hpy]
  · rw [cir_mem_suggestions, hpy]

/-- Witness for claim C6: the empty row set has zero revenue; its margin is
null and the WCR_HIGH rule compares against the revenue-1 fallback. -/
theorem zero_revenue_safety_witness :
    (compute_kpi [] exPcg).1.ebitda_margin_pct = none ∧
    ((⟨"WCR_HIGH"⟩ : Suggestion) ∈
        suggestions (compute_kpi [] exPcg).1 { profit_before_tax := 0 }
          (compute_kpi [] exPcg).2 ↔
      pyOrOpt (compute_kpi [] exPcg).1.working_capital_need 0 > 1/10 * 1) := by
  have h0 : prefix_sum ([] : List TrialBalanceRow) exPcg.sales_prefixes * (-1) = 0 := by
    simp [prefix_sum, exPcg]
  have h := zero_revenue_safety [] exPcg { profit_before_tax := 0 }
  exact ⟨h.1.mpr h0, (h.2 h0).1⟩

/-- Claim C8: normalization fails (with an error, producing no rows) if and
only if one of `account`, `debit`, `credit` is absent from the table's
columns; with all three present it always succeeds, producing the trimmed /
coerced rows, every non-numeric debit or credit becomes 0, and every
produced row carries `balance = debit - credit`. -/
theorem normalize_validation (df : RawTable) :
    ((∃ e, normalize_trial_balance df = .error e) ↔
      ¬("account" ∈ df.columns ∧ "debit" ∈ df.columns ∧ "credit" ∈ df.columns)) ∧
    (∀ rows, normalize_trial_balance df = .ok rows →
      rows = df.rows.map (fun r =>
        { account := pyStrip (df.cell "account" r).pyStr
          debit := (df.cell "debit" r).toNumeric
          credit := (df.cell "credit" r).toNumeric
          balance := (df.cell "debit" r).toNumeric
            - (df.cell "credit" r).toNumeric }) ∧
      ∀ row ∈ rows, row.balance = row.debit - row.credit) ∧
    (∀ s, Cell.toNumeric (Cell.text s) = 0) ∧
    Cell.toNumeric Cell.null = 0 := by
  refine ⟨?_, ?_, fun s => rfl, rfl⟩
  · unfold normalize_trial_balance
    split_ifs with h
    · constructor
      · rintro ⟨e, he⟩
        cases he
      · intro hc
        exact absurd h hc
    · constructor
      · intro _
        exact h
      · intro _
        exact ⟨_, rfl⟩
  · intro rows hok
    unfold normalize_trial_balance at hok
    split_ifs at hok with h
    obtain rfl := (Except.ok.inj hok).symm
    refine ⟨rfl, ?_⟩
    intro row hrow
    obtain ⟨r, -, rfl⟩ := List.mem_map.mp hrow
    rfl

/-- Witness for claim C8: a table missing the `credit` column is rejected
with an error. -/
theorem normalize_validation_witness :
    ∃ e, normalize_trial_balance
        { columns := ["account", "debit"], rows := [] } = .error e :=
  (normalize_validation { columns := ["account", "debit"], rows := [] }).1.mpr
    (by decide)

/-- Claim C10: the null test for the EBITDA margin is decided by the
unrounded revenue bucket sum, while the reported revenue is rounded; a
revenue bucket sum of 0.004 reports `revenue = 0.00` with a non-null
margin. -/
theorem margin_null_decided_by_unrounded_revenue :
    (∀ (df : List TrialBalanceRow) (pcg : PcgMapping),
      (compute_kpi df pcg).1.ebitda_margin_pct = none ↔
        prefix_sum df pcg.sales_prefixes * (-1) = 0) ∧
    ((compute_kpi [⟨"701", 0, 4/1000, -(4/1000)⟩] exPcg).1.revenue = 0 ∧
      (compute_kpi [⟨"701", 0, 4/1000, -(4/1000)⟩] exPcg).1.ebitda_margin_pct
        ≠ none) := by
  have hps : prefix_sum [⟨"701", 0, 4/1000, -(4/1000)⟩] exPcg.sales_prefixes
      = -(4/1000) := by
    simp [prefix_sum, exPcg, List.filter,
      show startswith "70" "701" = true from by decide]
  refine ⟨compute_kpi_margin_none_iff, ?_, ?_⟩
  · rw [compute_kpi_revenue, hps]
    norm_num [round2, roundHalfEven]
  · rw [Ne, compute_kpi_margin_none_iff, hps]
    norm_num
